import Mathlib

/-!
# delineateio/platform, customers service: logging facade and repository

A shallow embedding of `src/logging/logger.go` and `src/repository/repository.go`.

* Mutable receivers (`*Repository`) become explicit state passing: every operation takes the
  repository and the world and returns the outcome together with the new repository and world.
* The world counts the invocations of the connector factory; a factory is a function of the
  number of invocations made so far, which is how a stateful Go closure (a test double that
  fails k times and then succeeds) is represented.
* A Go `error` is `Option Go.Error`, `none` being `nil`; a nil pointer dereference is the outcome
  `panicked`.
* Calls to the logging facade from the repository change neither the repository nor any returned
  value and are left out of the repository operations.
* Sleeping between attempts is not represented: only the order and number of calls are.
-/

namespace Go

/-- The Unicode tables of the Go runtime, which are not part of the sources: `toLower` is
`unicode.ToLower` on runes outside ASCII, and `foldsTo lo hi` says whether walking the
`unicode.SimpleFold` orbit of `lo` reaches `hi`. -/
structure UnicodeTables where
  toLower : Char → Char
  foldsTo : Char → Char → Bool

/-- A table with no case pairs outside ASCII, for evaluating on ASCII inputs. -/
def asciiTables : UnicodeTables :=
  { toLower := fun c => c, foldsTo := fun _ _ => false }

/-- Lower-casing of an ASCII rune: `c += 'a' - 'A'` for `'A' <= c <= 'Z'`. -/
def asciiLower (c : Char) : Char :=
  if 'A' ≤ c ∧ c ≤ 'Z' then Char.ofNat (c.toNat + 32) else c

/-- Go `bytes.ToLower`: ASCII runes by the ASCII rule, the others by `unicode.ToLower`. -/
def ToLower (u : UnicodeTables) (s : String) : String :=
  String.mk (s.data.map fun c => if c.toNat < 128 then asciiLower c else u.toLower c)

/-- One step of the loop of Go `strings.EqualFold`: do the runes `sr` and `tr` match under
simple case folding. -/
def foldRune (u : UnicodeTables) (sr tr : Char) : Bool :=
  if tr = sr then true
  else
    let lo := if tr < sr then tr else sr
    let hi := if tr < sr then sr else tr
    if hi.toNat < 128 then
      decide ('A' ≤ lo ∧ lo ≤ 'Z' ∧ hi.toNat = lo.toNat + 32)
    else u.foldsTo lo hi

/-- The loop of `strings.EqualFold` over the runes of both strings; when one string is used up
the result is whether both are. -/
def equalFoldRunes (u : UnicodeTables) : List Char → List Char → Bool
  | s :: ss, t :: ts => if foldRune u s t then equalFoldRunes u ss ts else false
  | [], [] => true
  | [], _ :: _ => false
  | _ :: _, [] => false

/-- Go `strings.EqualFold`. -/
def EqualFold (u : UnicodeTables) (s t : String) : Bool :=
  equalFoldRunes u s.data t.data

/-- A Go error value: one made by `errors.New` (or any error of a driver), known by its message,
or the error `retry.Do` returns, which carries the errors of the failed attempts in order. -/
inductive Error where
  | plain (msg : String)
  | retry (log : List String)
  deriving DecidableEq, Repr

/-- How a call ended: it returned an `error` (`none` is `nil`), or it panicked. -/
inductive Outcome where
  | returned (err : Option Error)
  | panicked
  deriving DecidableEq, Repr

end Go

namespace Logging

/-- Go `zapcore.Level`, an `int8`. -/
abbrev Level := Int

def DebugLevel : Level := -1
def InfoLevel : Level := 0
def WarnLevel : Level := 1
def ErrorLevel : Level := 2
def DPanicLevel : Level := 3
def PanicLevel : Level := 4
def FatalLevel : Level := 5

/-- Go `const defaultLevel = zapcore.WarnLevel`. -/
def defaultLevel : Level := WarnLevel

/-- The `switch` of `zapcore.Level.unmarshalText`: the level names in lower and in upper case,
and the empty text, which zap reads as the info level. -/
def unmarshalText (text : String) : Option Level :=
  if text = "debug" ∨ text = "DEBUG" then some DebugLevel
  else if text = "info" ∨ text = "INFO" ∨ text = "" then some InfoLevel
  else if text = "warn" ∨ text = "WARN" then some WarnLevel
  else if text = "error" ∨ text = "ERROR" then some ErrorLevel
  else if text = "dpanic" ∨ text = "DPANIC" then some DPanicLevel
  else if text = "panic" ∨ text = "PANIC" then some PanicLevel
  else if text = "fatal" ∨ text = "FATAL" then some FatalLevel
  else none

/-- Go `zapcore.Level.UnmarshalText`: the text as it is, then lower-cased; `none` is the
"unrecognized level" error. -/
def UnmarshalText (u : Go.UnicodeTables) (text : String) : Option Level :=
  match unmarshalText text with
  | some l => some l
  | none => unmarshalText (Go.ToLower u text)

/-- Go `getLevel`: `level` starts as the zero value and is overwritten by a successful parse; when
the parse fails it becomes `defaultLevel`. -/
def getLevel (u : Go.UnicodeTables) (config : String) : Level :=
  match UnmarshalText u config with
  | some level => level
  | none => defaultLevel

/-- Logger is the implementation of the logger. -/
structure Logger where
  DefaultLevel : Level
  Level : Level
  deriving DecidableEq, Repr

/-- Go `NewLogger`. -/
def NewLogger (u : Go.UnicodeTables) (config : String) : Logger :=
  { DefaultLevel := WarnLevel, Level := getLevel u config }

/-- One record written to stderr. -/
structure Record where
  level : Level
  title : String
  message : String
  deriving DecidableEq, Repr

/-- The process-wide logging state: the threshold of the global zap logger (`none` while the
global logger is still zap's no-op logger) and the records written so far. -/
structure Globals where
  threshold : Option Level
  stderr : List Record
  deriving DecidableEq, Repr

/-- Go `zapcore.Level.Enabled`: `lvl >= l`. -/
def Enabled (l lvl : Level) : Bool := decide (lvl ≥ l)

/-- Go `add` with the operation of level `lvl` of the global logger: the record is written when the
level is enabled. -/
def add (lvl : Level) (event message : String) (g : Globals) : Globals :=
  match g.threshold with
  | none => g
  | some l =>
    if Enabled l lvl then
      { g with stderr := g.stderr ++ [{ level := lvl, title := event, message := message }] }
    else g

/-- Go `Debug`. -/
def Debug (event message : String) (g : Globals) : Globals := add DebugLevel event message g

/-- Go `Info`. -/
def Info (event message : String) (g : Globals) : Globals := add InfoLevel event message g

/-- Go `Warn`. -/
def Warn (event message : String) (g : Globals) : Globals := add WarnLevel event message g

/-- Go `Error`, given the message of the error. -/
def Error (event err : String) (g : Globals) : Globals := add ErrorLevel event err g

/-- Go `Logger.Load`: replaces the global logger by one at `l.Level` and logs at info level. -/
def Load (l : Logger) (g : Globals) : Globals :=
  Info "logger.initialised" "the logger level has been set" { g with threshold := some l.Level }

end Logging

namespace Data

/-- Modelled from the spec: the Config Source (`github.com/delineateio/core/config`), which is
not part of the sources, "exposes typed lookups by key with a default value
(string/int/unsigned/duration)". A key is set to a value or unset. Durations are in
nanoseconds. -/
structure Config where
  strings : String → Option String
  uints : String → Option Nat
  ints : String → Option Int
  durations : String → Option Int

/-- Modelled from the spec: the string lookup of the Config Source, the default standing for an
unset key. -/
def Config.GetString (c : Config) (key : String) (defaultValue : String) : String :=
  (c.strings key).getD defaultValue

/-- Modelled from the spec: the unsigned lookup of the Config Source. -/
def Config.GetUint (c : Config) (key : String) (defaultValue : Nat) : Nat :=
  (c.uints key).getD defaultValue

/-- Modelled from the spec: the integer lookup of the Config Source. -/
def Config.GetInt (c : Config) (key : String) (defaultValue : Int) : Int :=
  (c.ints key).getD defaultValue

/-- Modelled from the spec: the duration lookup of the Config Source. -/
def Config.GetDuration (c : Config) (key : String) (defaultValue : Int) : Int :=
  (c.durations key).getD defaultValue

/-- What is seen of a `*gorm.DB`: which connection pool it is, and the pool limits. -/
structure Handle where
  conn : Nat
  maxOpen : Int
  maxIdle : Int
  maxLifetime : Int
  deriving DecidableEq, Repr

/-- The pair `(*gorm.DB, error)` a connector factory returns; `none` is `nil` in both places. -/
structure FactoryResult where
  db : Option Handle
  err : Option String
  deriving DecidableEq, Repr

/-- A connector factory `func() (*gorm.DB, error)`: its result as a function of the number of
factory invocations made before this one. -/
abbrev Factory := Nat → FactoryResult

/-- Info represents the connection details. The field `Type` of the source is `Typ` here.
`Tries` is a Go `int` that moves by one per factory call; it is kept as an integer without
wrap-around. -/
structure Info where
  Typ : String
  ConnectionString : String
  Tries : Int
  deriving DecidableEq, Repr

/-- Repository that represents the access to the underlying database. `Attempts` is a `uint`,
the durations are in nanoseconds, `none` is `nil` for `Database` and `SetDBFunc`. -/
structure Repository where
  Name : String
  Database : Option Handle
  DBTypeKey : String
  DBConnectionStringKey : String
  AllowedDBTypes : List String
  DefaultDBType : String
  Attempts : Nat
  Delay : Int
  MaxIdle : Int
  MaxOpen : Int
  MaxLifetime : Int
  SetDBFunc : Option Factory
  Info : Info

/-- What surrounds a repository: the configuration, the Unicode tables of the runtime and the
database driver (what `gorm.Open` returns for a kind and a connection string, what pinging and
closing a handle return). -/
structure Env where
  config : Config
  unicode : Go.UnicodeTables
  gormOpen : String → String → Factory
  ping : Handle → Option String
  close : Handle → Option String

/-- The state outside the repository: how many times a connector factory has been invoked. -/
structure World where
  calls : Nat
  deriving DecidableEq, Repr

/-- Go `const DefaultDBType = "postgres"`. -/
def DefaultDBType : String := "postgres"

def defaultRetries : Nat := 3
def defaultDelayMilliseconds : Int := 500
def defaultMaxIdle : Int := 500
def defaultMaxOpen : Int := 50
def defaultMaxLifetime : Int := 60

/-- Go `time.Millisecond` in nanoseconds. -/
def Millisecond : Int := 1000000

/-- Go `time.Minute` in nanoseconds. -/
def Minute : Int := 60000000000

/-- Go `NewRepository`: the fields not listed in the composite literal are zero values. -/
def NewRepository (env : Env) (name : String) : Repository :=
  { Name := name
    Database := none
    DBTypeKey := "db." ++ name ++ ".type"
    DBConnectionStringKey := "db." ++ name ++ ".connection"
    AllowedDBTypes := ["postgres"]
    DefaultDBType := DefaultDBType
    Attempts := env.config.GetUint ("db." ++ name ++ ".retries.attempts") defaultRetries
    Delay := env.config.GetDuration ("db." ++ name ++ ".retries.delay")
      (defaultDelayMilliseconds * Millisecond)
    MaxIdle := env.config.GetInt ("db." ++ name ++ ".limits.maxIdle") defaultMaxIdle
    MaxOpen := env.config.GetInt ("db." ++ name ++ ".limits.maxOpen") defaultMaxOpen
    MaxLifetime := env.config.GetDuration ("db." ++ name ++ ".limits.maxLifetime")
      (defaultMaxLifetime * Minute)
    SetDBFunc := none
    Info := { Typ := "", ConnectionString := "", Tries := 0 } }

/-- Go `dbTypeAllowed`. -/
def dbTypeAllowed (env : Env) (expect : String) : List String → Bool
  | [] => false
  | current :: rest =>
    if Go.EqualFold env.unicode expect current then true else dbTypeAllowed env expect rest

/-- Go `getDatabaseType`: the kind and the error. -/
def getDatabaseType (env : Env) (r : Repository) : String × Option Go.Error :=
  let dbType := env.config.GetString r.DBTypeKey DefaultDBType
  if !dbTypeAllowed env dbType r.AllowedDBTypes then
    (DefaultDBType, some (Go.Error.plain "no db type was provided"))
  else
    (dbType, none)

/-- Go `getConnectionString`: the connection string and the error. -/
def getConnectionString (env : Env) (r : Repository) : String × Option Go.Error :=
  let connectionString := env.config.GetString r.DBConnectionStringKey ""
  if connectionString = "" then
    (connectionString, some (Go.Error.plain "no connection string was provided"))
  else
    (connectionString, none)

/-- The zero value `Info{}`. -/
def Info.zero : Info := { Typ := "", ConnectionString := "", Tries := 0 }

/-- Go `getInfo`: the returned `Info`, the error, and the repository afterwards. -/
def getInfo (env : Env) (r : Repository) : Info × Option Go.Error × Repository :=
  match getDatabaseType env r with
  | (_, some err) => (Info.zero, some err, r)
  | (dbType, none) =>
    match getConnectionString env r with
    | (_, some err) => (Info.zero, some err, r)
    | (dbConnectionString, none) =>
      let info : Info := { Typ := dbType, ConnectionString := dbConnectionString, Tries := 0 }
      (info, none, { r with Info := info })

/-- Go `setDB`: binds the default factory, `gorm.Open(info.Type, info.ConnectionString)`, when no
factory is set. -/
def setDB (env : Env) (r : Repository) (info : Info) : Repository :=
  match r.SetDBFunc with
  | none => { r with SetDBFunc := some (env.gormOpen info.Typ info.ConnectionString) }
  | some _ => r

/-- Go `Ping`. Calling a nil `SetDBFunc` and pinging through a nil handle panic. -/
def Ping (env : Env) (r : Repository) (w : World) : Go.Outcome × Repository × World :=
  match getInfo env r with
  | (_, some err, r1) => (Go.Outcome.returned (some err), r1, w)
  | (info, none, r1) =>
    let r2 := setDB env r1 info
    match r2.SetDBFunc with
    | none => (Go.Outcome.panicked, r2, w)
    | some f =>
      let res := f w.calls
      let w1 : World := { calls := w.calls + 1 }
      match res.err with
      | some err => (Go.Outcome.returned (some (Go.Error.plain err)), r2, w1)
      | none =>
        match res.db with
        | none => (Go.Outcome.panicked, r2, w1)
        | some db => (Go.Outcome.returned ((env.ping db).map Go.Error.plain), r2, w1)

/-- How one run of the function handed to `retry.Do` ended. -/
inductive Attempt where
  | ok
  | failed (err : String)
  | panicked
  deriving DecidableEq, Repr

/-- The function literal `Open` hands to `retry.Do`: `r.Info.Tries++`, then
`r.Database, err = r.SetDBFunc()`, then `err` is returned. -/
def attempt (s : Repository × World) : Attempt × (Repository × World) :=
  let r1 : Repository := { s.1 with Info := { s.1.Info with Tries := s.1.Info.Tries + 1 } }
  match r1.SetDBFunc with
  | none => (Attempt.panicked, (r1, s.2))
  | some f =>
    let res := f s.2.calls
    let r2 : Repository := { r1 with Database := res.db }
    let w1 : World := { calls := s.2.calls + 1 }
    match res.err with
    | some err => (Attempt.failed err, (r2, w1))
    | none => (Attempt.ok, (r2, w1))

/-- Modelled from the spec: the loop of `retry.Do` (`github.com/avast/retry-go`, not part of the
sources): "retries the factory call up to `attempts` times (inclusive of the first attempt)";
a run without error ends the loop with no error; "if all attempts fail" the errors of the
attempts are returned, the last error last; a panic of the function goes through. With no
attempt allowed the loop body never runs and the error, with no entry, is returned at once,
as in the `for n < attempts` loop of the library. The errors are plain errors: the wrapper
`retry.Unrecoverable` of the library, which the sources never use, is not represented. `n` is
the number of attempts left, `log` the errors so far. -/
def retryLoop {σ : Type} (retryableFunc : σ → Attempt × σ) : Nat → List String → σ → Go.Outcome × σ
  | 0, log, s => (Go.Outcome.returned (some (Go.Error.retry log)), s)
  | n + 1, log, s =>
    match retryableFunc s with
    | (Attempt.ok, s1) => (Go.Outcome.returned none, s1)
    | (Attempt.failed err, s1) => retryLoop retryableFunc n (log ++ [err]) s1
    | (Attempt.panicked, s1) => (Go.Outcome.panicked, s1)

/-- Modelled from the spec: `retry.Do(retryableFunc, retry.Attempts(attempts), ...)`. -/
def retryDo {σ : Type} (retryableFunc : σ → Attempt × σ) (attempts : Nat) (s : σ) :
    Go.Outcome × σ :=
  retryLoop retryableFunc attempts [] s

/-- Go `Open`. After the retries succeeded the pool limits are set through `r.Database`, which
panics when the handle is nil. -/
def Open (env : Env) (r : Repository) (w : World) : Go.Outcome × Repository × World :=
  match getInfo env r with
  | (_, some err, r1) => (Go.Outcome.returned (some err), r1, w)
  | (info, none, r1) =>
    let r2 := setDB env r1 info
    match retryDo attempt r2.Attempts (r2, w) with
    | (Go.Outcome.returned (some err), (r3, w3)) => (Go.Outcome.returned (some err), r3, w3)
    | (Go.Outcome.panicked, (r3, w3)) => (Go.Outcome.panicked, r3, w3)
    | (Go.Outcome.returned none, (r3, w3)) =>
      match r3.Database with
      | none => (Go.Outcome.panicked, r3, w3)
      | some db =>
        (Go.Outcome.returned none,
          { r3 with Database := some { db with maxOpen := r3.MaxOpen, maxIdle := r3.MaxIdle,
                                               maxLifetime := r3.MaxLifetime } },
          w3)

/-- The message of the error of `Migrate`, as the source spells it. -/
def migrateMessage : String :=
  "migrate is not implemneted in the base implemenation of respositor"

/-- Go `Migrate`. -/
def Migrate (r : Repository) (w : World) : Go.Outcome × Repository × World :=
  (Go.Outcome.returned (some (Go.Error.plain migrateMessage)), r, w)

/-- Go `Close`. Closing through a nil handle panics. -/
def Close (env : Env) (r : Repository) (w : World) : Go.Outcome × Repository × World :=
  match r.Database with
  | none => (Go.Outcome.panicked, r, w)
  | some db => (Go.Outcome.returned ((env.close db).map Go.Error.plain), r, w)

/-- The calls of the interface of a repository. -/
inductive Call where
  | Open
  | Ping
  | Migrate
  | Close
  deriving DecidableEq, Repr

/-- One call on a repository. -/
def Call.run (env : Env) : Call → Repository → World → Go.Outcome × Repository × World
  | Call.Open, r, w => Data.Open env r w
  | Call.Ping, r, w => Data.Ping env r w
  | Call.Migrate, r, w => Data.Migrate r w
  | Call.Close, r, w => Data.Close env r w

/-- A sequence of calls on a repository, one after the other; a panic ends the sequence. The
outcomes of the calls made are returned with the last state. -/
def runCalls (env : Env) : List Call → Repository → World → List Go.Outcome × Repository × World
  | [], r, w => ([], r, w)
  | c :: cs, r, w =>
    match c.run env r w with
    | (Go.Outcome.panicked, r1, w1) => ([Go.Outcome.panicked], r1, w1)
    | (Go.Outcome.returned err, r1, w1) =>
      let rest := runCalls env cs r1 w1
      (Go.Outcome.returned err :: rest.1, rest.2)

/-- A configuration that sets at most the kind and the connection string of the database
"orders". -/
def ordersConfig (kind conn : Option String) : Config :=
  { strings := fun key =>
      if key = "db.orders.type" then kind
      else if key = "db.orders.connection" then conn
      else none
    uints := fun _ => none
    ints := fun _ => none
    durations := fun _ => none }

/-- An environment over `ordersConfig` whose driver cannot reach any database. -/
def ordersEnv (kind conn : Option String) : Env :=
  { config := ordersConfig kind conn
    unicode := Go.asciiTables
    gormOpen := fun _ _ _ => { db := none, err := some "dial failed" }
    ping := fun _ => none
    close := fun _ => none }

/-- A handle as a driver hands it out. -/
def freshHandle : Handle := { conn := 1, maxOpen := 0, maxIdle := 2, maxLifetime := 0 }

/-- A test double that fails on its first `k` invocations and opens a handle afterwards. -/
def failsThenOpens (k : Nat) : Factory := fun i =>
  if i < k then { db := none, err := some "connection refused" }
  else { db := some freshHandle, err := none }

/-- A test double that fails on every invocation. -/
def alwaysFails : Factory := fun _ => { db := none, err := some "connection refused" }

/-- A factory that returns a handle alongside its error on every invocation. -/
def failsWithHandle : Factory := fun _ => { db := some freshHandle, err := some "ping failed" }

/-- The repository `NewRepository("orders")` with `SetDBFunc` and `Database` set to the given
values. -/
def ordersRepository (env : Env) (f : Option Factory) (db : Option Handle) : Repository :=
  { NewRepository env "orders" with SetDBFunc := f, Database := db }

end Data

/-! ## The retry loop -/

namespace Data
open Go

/-- A property of the state that every run of the function keeps holds after the loop. -/
theorem retryLoop_preserves {σ : Type} (body : σ → Attempt × σ) (P : σ → Prop)
    (hP : ∀ s, P s → P (body s).2) :
    ∀ (n : Nat) (log : List String) (s : σ), P s → P (retryLoop body n log s).2 := by
  intro n
  induction n with
  | zero => intro log s hs; simpa [retryLoop] using hs
  | succ n ih =>
    intro log s hs
    have h1 := hP s hs
    unfold retryLoop
    rcases hb : body s with ⟨a, s1⟩
    rw [hb] at h1
    cases a with
    | ok => simpa using h1
    | failed err => simpa using ih (log ++ [err]) s1 h1
    | panicked => simpa using h1

/-- One attempt with a bound factory: the counter moves by one, the factory is invoked once,
and what it returned is stored in `Database` whether it failed or not. -/
theorem attempt_of_bound (r : Repository) (w : World) (f : Factory) (hf : r.SetDBFunc = some f) :
    attempt (r, w) =
      ((match (f w.calls).err with
        | some err => Attempt.failed err
        | none => Attempt.ok),
       ({ r with Info := { r.Info with Tries := r.Info.Tries + 1 }, Database := (f w.calls).db },
        { calls := w.calls + 1 })) := by
  unfold attempt
  simp only [hf]
  cases (f w.calls).err <;> rfl

/-- An attempt never touches `SetDBFunc`. -/
theorem attempt_SetDBFunc (s : Repository × World) :
    (attempt s).2.1.SetDBFunc = s.1.SetDBFunc := by
  rcases s with ⟨r, w⟩
  cases h : r.SetDBFunc with
  | none => simp [attempt, h]
  | some f =>
    rw [attempt_of_bound r w f h]
    exact h

/-- With `k` failures followed by a run without error, and more than `k` attempts allowed, the
loop ends without error after `k + 1` runs. -/
theorem retryLoop_fail_then_ok (f : Factory) :
    ∀ (k n : Nat) (log : List String) (r : Repository) (w : World),
      r.SetDBFunc = some f → k < n →
      (∀ i, i < k → (f (w.calls + i)).err ≠ none) → (f (w.calls + k)).err = none →
      retryLoop attempt n log (r, w) =
        (Outcome.returned none,
          ({ r with Info := { r.Info with Tries := r.Info.Tries + (k + 1 : Nat) },
                    Database := (f (w.calls + k)).db },
           { calls := w.calls + (k + 1) })) := by
  intro k
  induction k with
  | zero =>
    intro n log r w hf hk _ hok
    obtain ⟨m, rfl⟩ : ∃ m, n = m + 1 := ⟨n - 1, by omega⟩
    unfold retryLoop
    rw [attempt_of_bound r w f hf]
    simp at hok
    simp [hok]
  | succ k ih =>
    intro n log r w hf hk hfail hok
    obtain ⟨m, rfl⟩ : ∃ m, n = m + 1 := ⟨n - 1, by omega⟩
    unfold retryLoop
    rw [attempt_of_bound r w f hf]
    have h0 := hfail 0 (by omega)
    simp at h0
    obtain ⟨e, he⟩ := Option.ne_none_iff_exists'.mp h0
    simp only [he]
    have key := ih m (log ++ [e])
      { r with Info := { r.Info with Tries := r.Info.Tries + 1 }, Database := (f w.calls).db }
      { calls := w.calls + 1 } hf (by omega)
      (fun i hi => by
        have := hfail (i + 1) (by omega)
        simpa [Nat.add_assoc, Nat.add_comm 1 i] using this)
      (by simpa [Nat.add_assoc, Nat.add_comm 1 k] using hok)
    simp only [] at key ⊢
    rw [key]
    simp [Nat.add_assoc, Nat.add_comm 1 k]
    constructor
    · ring
    · omega

/-- When every run fails the loop ends with the retry error after exactly `n` runs. -/
theorem retryLoop_all_fail (f : Factory) :
    ∀ (n : Nat) (log : List String) (r : Repository) (w : World),
      r.SetDBFunc = some f → (∀ i, i < n → (f (w.calls + i)).err ≠ none) →
      ∃ log1 r1, retryLoop attempt n log (r, w) =
        (Outcome.returned (some (Error.retry log1)), (r1, { calls := w.calls + n })) := by
  intro n
  induction n with
  | zero => intro log r w _ _; exact ⟨log, r, rfl⟩
  | succ n ih =>
    intro log r w hf hfail
    unfold retryLoop
    rw [attempt_of_bound r w f hf]
    have h0 := hfail 0 (by omega)
    simp at h0
    obtain ⟨e, he⟩ := Option.ne_none_iff_exists'.mp h0
    simp only [he]
    obtain ⟨log1, r1, h1⟩ := ih (log ++ [e])
      { r with Info := { r.Info with Tries := r.Info.Tries + 1 }, Database := (f w.calls).db }
      { calls := w.calls + 1 } hf
      (fun i hi => by
        have := hfail (i + 1) (by omega)
        simpa [Nat.add_assoc, Nat.add_comm 1 i] using this)
    refine ⟨log1, r1, ?_⟩
    simp only [] at h1 ⊢
    rw [h1]
    simp [Nat.add_assoc, Nat.add_comm 1 n]

/-- When the loop ends with an error and the factory hands out no handle alongside an error,
a repository that held no handle holds none afterwards. -/
theorem retryLoop_error_keeps_nil (f : Factory)
    (hclean : ∀ i, (f i).err ≠ none → (f i).db = none) :
    ∀ (n : Nat) (log : List String) (r : Repository) (w : World) (e : Error),
      r.SetDBFunc = some f → r.Database = none →
      (retryLoop attempt n log (r, w)).1 = Outcome.returned (some e) →
      (retryLoop attempt n log (r, w)).2.1.Database = none := by
  intro n
  induction n with
  | zero => intro log r w e _ hdb _; simpa [retryLoop] using hdb
  | succ n ih =>
    intro log r w e hf _ herr
    unfold retryLoop at herr ⊢
    rw [attempt_of_bound r w f hf] at herr ⊢
    cases he : (f w.calls).err with
    | none => simp [he] at herr
    | some msg =>
      simp only [he] at herr ⊢
      exact ih _ _ _ e hf (hclean w.calls (by simp [he])) herr

/-- The resolution of the connection info either fails, returning the zero `Info` and leaving
the repository as it was, or succeeds with a counter at 0 and stores the `Info`. -/
theorem getInfo_cases (env : Env) (r : Repository) :
    (∃ e, getInfo env r = (Info.zero, some e, r)) ∨
    (∃ info : Info, info.Tries = 0 ∧ getInfo env r = (info, none, { r with Info := info })) := by
  unfold getInfo
  rcases hk : getDatabaseType env r with ⟨k, ek⟩
  cases ek with
  | some e => exact Or.inl ⟨e, rfl⟩
  | none =>
    rcases hc : getConnectionString env r with ⟨c, ec⟩
    cases ec with
    | some e => exact Or.inl ⟨e, rfl⟩
    | none => exact Or.inr ⟨_, rfl, rfl⟩

/-- Storing an `Info` does not change which factory `setDB` leaves bound. -/
theorem setDB_SetDBFunc_with_info (env : Env) (r : Repository) (info i : Info) :
    (setDB env { r with Info := i } info).SetDBFunc = (setDB env r info).SetDBFunc := by
  unfold setDB
  cases h : r.SetDBFunc <;> simp [h]

/-- The function `setDB` changes no field but `SetDBFunc`. -/
theorem setDB_fields (env : Env) (r : Repository) (info : Info) :
    (setDB env r info).Attempts = r.Attempts ∧ (setDB env r info).Info = r.Info ∧
    (setDB env r info).Database = r.Database := by
  unfold setDB
  cases h : r.SetDBFunc <;> simp

end Data

/-! ## Open -/

namespace Data
open Go

/-- When the resolution fails `Open` returns its error and changes neither the repository nor
the world. -/
theorem Open_of_getInfo_error (env : Env) (r : Repository) (w : World) (e : Error)
    (h : getInfo env r = (Info.zero, some e, r)) :
    Open env r w = (Outcome.returned (some e), r, w) := by
  unfold Open
  rw [h]

/-- When the resolution succeeds `Open` runs the retry loop from a counter at 0 and, after a
run without error, sets the pool limits. -/
theorem Open_of_getInfo_ok (env : Env) (r : Repository) (w : World) (info : Info)
    (h : getInfo env r = (info, none, { r with Info := info })) :
    Open env r w =
      (match retryLoop attempt r.Attempts [] (setDB env { r with Info := info } info, w) with
      | (Outcome.returned (some err), (r3, w3)) => (Outcome.returned (some err), r3, w3)
      | (Outcome.panicked, (r3, w3)) => (Outcome.panicked, r3, w3)
      | (Outcome.returned none, (r3, w3)) =>
        match r3.Database with
        | none => (Outcome.panicked, r3, w3)
        | some db =>
          (Outcome.returned none,
            { r3 with Database := some { db with maxOpen := r3.MaxOpen, maxIdle := r3.MaxIdle,
                                                 maxLifetime := r3.MaxLifetime } },
            w3)) := by
  unfold Open
  rw [h]
  simp only [retryDo, (setDB_fields env { r with Info := info } info).1]

/-- Claim C1: when the connection info resolves, more than `k` attempts are allowed, and the
connector factory fails on its first `k` invocations and then succeeds (no error, a handle),
`Open` returns no error, the factory has been invoked exactly `k + 1` times and `Info.Tries`
is `k + 1`. -/
theorem Open_succeeds_after_k_failures (env : Env) (r : Repository) (w : World) (f : Factory)
    (k : Nat)
    (hres : (getInfo env r).2.1 = none)
    (hf : (setDB env r (getInfo env r).1).SetDBFunc = some f)
    (hk : k < r.Attempts)
    (hfail : ∀ i, i < k → (f (w.calls + i)).err ≠ none)
    (hok : ∃ db, f (w.calls + k) = { db := some db, err := none }) :
    (Open env r w).1 = Outcome.returned none ∧
    (Open env r w).2.2.calls = w.calls + (k + 1) ∧
    (Open env r w).2.1.Info.Tries = k + 1 := by
  rcases getInfo_cases env r with ⟨e, he⟩ | ⟨info, ht, hi⟩
  · rw [he] at hres; simp at hres
  · obtain ⟨db, hdb⟩ := hok
    rw [hi] at hf
    simp only [] at hf
    have hf2 := (setDB_SetDBFunc_with_info env r info info).trans hf
    have hloop := retryLoop_fail_then_ok f k r.Attempts []
      (setDB env { r with Info := info } info) w hf2 hk hfail (by rw [hdb])
    rw [Open_of_getInfo_ok env r w info hi, hloop]
    simp [hdb, (setDB_fields env { r with Info := info } info).2.1, ht]

/-- Witness of C1: three attempts allowed, a factory that fails twice and then opens. -/
theorem Open_succeeds_after_k_failures_witness :
    (Open (ordersEnv none (some "host=db"))
        (ordersRepository (ordersEnv none (some "host=db")) (some (failsThenOpens 2)) none)
        { calls := 0 }).1 = Outcome.returned none ∧
    (Open (ordersEnv none (some "host=db"))
        (ordersRepository (ordersEnv none (some "host=db")) (some (failsThenOpens 2)) none)
        { calls := 0 }).2.2.calls = 0 + (2 + 1) ∧
    (Open (ordersEnv none (some "host=db"))
        (ordersRepository (ordersEnv none (some "host=db")) (some (failsThenOpens 2)) none)
        { calls := 0 }).2.1.Info.Tries = (2 : Nat) + 1 :=
  Open_succeeds_after_k_failures (ordersEnv none (some "host=db"))
    (ordersRepository (ordersEnv none (some "host=db")) (some (failsThenOpens 2)) none)
    { calls := 0 } (failsThenOpens 2) 2 (by decide) rfl (by decide)
    (fun i hi => by simp [failsThenOpens, hi])
    ⟨freshHandle, by decide⟩

/-- Claim C2: when the connection info resolves and the connector factory fails on every
invocation, `Open` returns an error and the factory has been invoked exactly `Attempts`
times. -/
theorem Open_fails_after_attempts (env : Env) (r : Repository) (w : World) (f : Factory)
    (hres : (getInfo env r).2.1 = none)
    (hf : (setDB env r (getInfo env r).1).SetDBFunc = some f)
    (hfail : ∀ i, (f i).err ≠ none) :
    (∃ e, (Open env r w).1 = Outcome.returned (some e)) ∧
    (Open env r w).2.2.calls = w.calls + r.Attempts := by
  rcases getInfo_cases env r with ⟨e, he⟩ | ⟨info, _, hi⟩
  · rw [he] at hres; simp at hres
  · rw [hi] at hf
    simp only [] at hf
    have hf2 := (setDB_SetDBFunc_with_info env r info info).trans hf
    obtain ⟨log1, r1, hloop⟩ := retryLoop_all_fail f r.Attempts []
      (setDB env { r with Info := info } info) w hf2 (fun i _ => hfail (w.calls + i))
    rw [Open_of_getInfo_ok env r w info hi, hloop]
    exact ⟨⟨_, rfl⟩, rfl⟩

/-- Witness of C2: the default three attempts and a factory that always fails. -/
theorem Open_fails_after_attempts_witness :
    (∃ e, (Open (ordersEnv none (some "host=db"))
        (ordersRepository (ordersEnv none (some "host=db")) (some alwaysFails) none)
        { calls := 0 }).1 = Outcome.returned (some e)) ∧
    (Open (ordersEnv none (some "host=db"))
        (ordersRepository (ordersEnv none (some "host=db")) (some alwaysFails) none)
        { calls := 0 }).2.2.calls = 0 + 3 :=
  Open_fails_after_attempts (ordersEnv none (some "host=db"))
    (ordersRepository (ordersEnv none (some "host=db")) (some alwaysFails) none)
    { calls := 0 } alwaysFails (by decide) rfl (fun i => by simp [alwaysFails])

end Data

/-! ## Resolution of the connection info -/

namespace Data
open Go

/-- A rune matches itself under case folding, whatever the Unicode tables. -/
theorem equalFoldRunes_self (u : UnicodeTables) (cs : List Char) :
    equalFoldRunes u cs cs = true := by
  induction cs with
  | nil => rfl
  | cons c cs ih => simp [equalFoldRunes, foldRune, ih]

/-- The kind the configuration gives when the key of the kind is unset is the default one. -/
theorem GetString_unset (c : Config) (key d : String) (h : c.strings key = none) :
    c.GetString key d = d := by
  simp [Config.GetString, h]

/-- The kind the configuration gives when the key of the kind is set. -/
theorem GetString_set (c : Config) (key d v : String) (h : c.strings key = some v) :
    c.GetString key d = v := by
  simp [Config.GetString, h]

/-- Claim C3, amended: for a configured kind that matches no entry of `AllowedDBTypes`,
`getDatabaseType` returns the error "no db type was provided" with the kind forced to the
package constant `DefaultDBType`, and `getInfo` returns that error with the zero `Info`
(empty kind), leaving the repository as it was. -/
theorem getInfo_kind_not_allowed (env : Env) (r : Repository) (kind : String)
    (hcfg : env.config.strings r.DBTypeKey = some kind)
    (hnot : dbTypeAllowed env kind r.AllowedDBTypes = false) :
    getDatabaseType env r = (DefaultDBType, some (Error.plain "no db type was provided")) ∧
    getInfo env r = (Info.zero, some (Error.plain "no db type was provided"), r) := by
  have hk : getDatabaseType env r =
      (DefaultDBType, some (Error.plain "no db type was provided")) := by
    simp [getDatabaseType, GetString_set _ _ _ _ hcfg, hnot]
  refine ⟨hk, ?_⟩
  unfold getInfo
  rw [hk]

/-- Witness of the amended C3: the kind "mysql" for the repository "orders". -/
theorem getInfo_kind_not_allowed_witness :
    getDatabaseType (ordersEnv (some "mysql") (some "host=db"))
        (NewRepository (ordersEnv (some "mysql") (some "host=db")) "orders") =
      (DefaultDBType, some (Error.plain "no db type was provided")) ∧
    getInfo (ordersEnv (some "mysql") (some "host=db"))
        (NewRepository (ordersEnv (some "mysql") (some "host=db")) "orders") =
      (Info.zero, some (Error.plain "no db type was provided"),
        NewRepository (ordersEnv (some "mysql") (some "host=db")) "orders") :=
  getInfo_kind_not_allowed (ordersEnv (some "mysql") (some "host=db"))
    (NewRepository (ordersEnv (some "mysql") (some "host=db")) "orders") "mysql"
    (by decide) (by decide)

/-- Counterexample to C3 as stated: with the kind "mysql" configured for "orders", which
matches no allowed kind, `getInfo` returns an error, but the kind in the `Info` it returns is
empty, not the `DefaultDBType` "postgres" of the repository. -/
theorem getInfo_returns_empty_kind :
    dbTypeAllowed (ordersEnv (some "mysql") (some "host=db")) "mysql"
        (NewRepository (ordersEnv (some "mysql") (some "host=db")) "orders").AllowedDBTypes
      = false ∧
    (getInfo (ordersEnv (some "mysql") (some "host=db"))
        (NewRepository (ordersEnv (some "mysql") (some "host=db")) "orders")).2.1 ≠ none ∧
    (getInfo (ordersEnv (some "mysql") (some "host=db"))
        (NewRepository (ordersEnv (some "mysql") (some "host=db")) "orders")).1.Typ = "" ∧
    (NewRepository (ordersEnv (some "mysql") (some "host=db")) "orders").DefaultDBType
      = "postgres" ∧
    (getInfo (ordersEnv (some "mysql") (some "host=db"))
        (NewRepository (ordersEnv (some "mysql") (some "host=db")) "orders")).1.Typ ≠
      (NewRepository (ordersEnv (some "mysql") (some "host=db")) "orders").DefaultDBType := by
  decide

/-- Claim C4, amended: when the connection string of the repository is empty or unset, `Open`
returns an error without invoking the connector factory and without changing the repository,
and `getConnectionString` returns the empty string, not a default. The error is "no connection
string was provided" when the kind resolves; when the kind is not allowed, the kind is reported
first and the error is "no db type was provided". -/
theorem Open_empty_connection_string (env : Env) (r : Repository) (w : World)
    (hconn : env.config.strings r.DBConnectionStringKey = none ∨
      env.config.strings r.DBConnectionStringKey = some "") :
    (Open env r w).1 = Outcome.returned (some (Error.plain
      (if dbTypeAllowed env (env.config.GetString r.DBTypeKey DefaultDBType) r.AllowedDBTypes
       then "no connection string was provided" else "no db type was provided"))) ∧
    (Open env r w).2.2 = w ∧
    (Open env r w).2.1 = r ∧
    (getConnectionString env r).1 = "" := by
  have hs : env.config.GetString r.DBConnectionStringKey "" = "" := by
    rcases hconn with h | h
    · exact GetString_unset _ _ _ h
    · exact GetString_set _ _ _ _ h
  have hc : getConnectionString env r =
      ("", some (Error.plain "no connection string was provided")) := by
    simp [getConnectionString, hs]
  cases ha : dbTypeAllowed env (env.config.GetString r.DBTypeKey DefaultDBType) r.AllowedDBTypes
  · have hi : getInfo env r = (Info.zero, some (Error.plain "no db type was provided"), r) := by
      simp [getInfo, getDatabaseType, ha]
    rw [Open_of_getInfo_error env r w _ hi, hc]
    simp
  · have hi : getInfo env r =
        (Info.zero, some (Error.plain "no connection string was provided"), r) := by
      simp [getInfo, getDatabaseType, ha, hc]
    rw [Open_of_getInfo_error env r w _ hi, hc]
    simp

/-- Witness of the amended C4: "orders" with an empty connection string and the kind unset. -/
theorem Open_empty_connection_string_witness :
    (Open (ordersEnv none (some ""))
        (ordersRepository (ordersEnv none (some "")) (some (failsThenOpens 0)) none)
        { calls := 0 }).1 = Outcome.returned (some (Error.plain
      "no connection string was provided")) ∧
    (Open (ordersEnv none (some ""))
        (ordersRepository (ordersEnv none (some "")) (some (failsThenOpens 0)) none)
        { calls := 0 }).2.2.calls = 0 :=
  ⟨(Open_empty_connection_string (ordersEnv none (some ""))
      (ordersRepository (ordersEnv none (some "")) (some (failsThenOpens 0)) none)
      { calls := 0 } (Or.inr (by decide))).1,
   by decide⟩

/-- Counterexample to C4 as stated: with the kind "mysql" and an empty connection string
configured for "orders", the error `Open` returns is "no db type was provided", not "no
connection string was provided". -/
theorem Open_kind_error_first :
    (ordersEnv (some "mysql") (some "")).config.strings
        (ordersRepository (ordersEnv (some "mysql") (some "")) (some (failsThenOpens 0))
          none).DBConnectionStringKey = some "" ∧
    (Open (ordersEnv (some "mysql") (some ""))
        (ordersRepository (ordersEnv (some "mysql") (some "")) (some (failsThenOpens 0)) none)
        { calls := 0 }).1 = Outcome.returned (some (Error.plain "no db type was provided")) ∧
    (Open (ordersEnv (some "mysql") (some ""))
        (ordersRepository (ordersEnv (some "mysql") (some "")) (some (failsThenOpens 0)) none)
        { calls := 0 }).1 ≠
      Outcome.returned (some (Error.plain "no connection string was provided")) := by
  decide

/-- Claim C10: for the repository `NewRepository(name)` and a configuration in which the key
`db.<name>.type` is unset, the kind resolves to "postgres" without error; `getInfo` fails
exactly when the connection string is empty, and otherwise returns the `Info` with kind
"postgres", that connection string and counter 0, and stores it on the repository. -/
theorem getInfo_kind_unset (env : Env) (name : String)
    (hunset : env.config.strings ("db." ++ name ++ ".type") = none) :
    getDatabaseType env (NewRepository env name) = ("postgres", none) ∧
    ((getInfo env (NewRepository env name)).2.1 ≠ none ↔
      env.config.GetString ("db." ++ name ++ ".connection") "" = "") ∧
    (env.config.GetString ("db." ++ name ++ ".connection") "" = "" →
      (getInfo env (NewRepository env name)).2.1 =
        some (Error.plain "no connection string was provided")) ∧
    (env.config.GetString ("db." ++ name ++ ".connection") "" ≠ "" →
      getInfo env (NewRepository env name) =
        ({ Typ := "postgres",
           ConnectionString := env.config.GetString ("db." ++ name ++ ".connection") "",
           Tries := 0 },
         none,
         { NewRepository env name with
           Info := { Typ := "postgres",
                     ConnectionString := env.config.GetString ("db." ++ name ++ ".connection") "",
                     Tries := 0 } })) := by
  have hallowed : dbTypeAllowed env "postgres" ["postgres"] = true := by
    simp [dbTypeAllowed, EqualFold, equalFoldRunes_self]
  have hk : getDatabaseType env (NewRepository env name) = ("postgres", none) := by
    have hg : env.config.GetString ("db." ++ name ++ ".type") DefaultDBType = "postgres" :=
      GetString_unset _ _ _ hunset
    simp [getDatabaseType, NewRepository, hg, hallowed]
  refine ⟨hk, ?_⟩
  by_cases hc : env.config.GetString ("db." ++ name ++ ".connection") "" = ""
  · have hcs : getConnectionString env (NewRepository env name) =
        ("", some (Error.plain "no connection string was provided")) := by
      simp [getConnectionString, NewRepository, hc]
    have hi : (getInfo env (NewRepository env name)).2.1 =
        some (Error.plain "no connection string was provided") := by
      unfold getInfo
      rw [hk, hcs]
    refine ⟨⟨fun _ => hc, fun _ => by rw [hi]; simp⟩, fun _ => hi, fun h => absurd hc h⟩
  · have hcs : getConnectionString env (NewRepository env name) =
        (env.config.GetString ("db." ++ name ++ ".connection") "", none) := by
      simp [getConnectionString, NewRepository, hc]
    have hi : getInfo env (NewRepository env name) =
        ({ Typ := "postgres",
           ConnectionString := env.config.GetString ("db." ++ name ++ ".connection") "",
           Tries := 0 },
         none,
         { NewRepository env name with
           Info := { Typ := "postgres",
                     ConnectionString := env.config.GetString ("db." ++ name ++ ".connection") "",
                     Tries := 0 } }) := by
      unfold getInfo
      rw [hk, hcs]
    refine ⟨⟨fun h => ?_, fun h => absurd h hc⟩, fun h => absurd h hc, fun _ => hi⟩
    rw [hi] at h
    simp at h

/-- Witness of C10: "orders" with the kind unset and the connection string "host=db". -/
theorem getInfo_kind_unset_witness :
    getDatabaseType (ordersEnv none (some "host=db"))
        (NewRepository (ordersEnv none (some "host=db")) "orders") = ("postgres", none) ∧
    (getInfo (ordersEnv none (some "host=db"))
        (NewRepository (ordersEnv none (some "host=db")) "orders")).1 =
      { Typ := "postgres", ConnectionString := "host=db", Tries := 0 } :=
  ⟨(getInfo_kind_unset (ordersEnv none (some "host=db")) "orders" (by decide)).1, by decide⟩

end Data

/-! ## What `Open` leaves on the repository -/

namespace Data
open Go

/-- While a factory is bound, the counter and the number of factory invocations move
together through the retry loop, and the factory stays bound. -/
theorem retryLoop_tries_calls (f : Factory) (n : Nat) (log : List String) (r : Repository)
    (w : World) (hf : r.SetDBFunc = some f) :
    (retryLoop attempt n log (r, w)).2.1.SetDBFunc = some f ∧
    (retryLoop attempt n log (r, w)).2.1.Info.Tries - r.Info.Tries =
      ((retryLoop attempt n log (r, w)).2.2.calls : Int) - w.calls := by
  refine retryLoop_preserves attempt
    (fun s => s.1.SetDBFunc = some f ∧ s.1.Info.Tries - r.Info.Tries = (s.2.calls : Int) - w.calls)
    ?_ n log (r, w) ⟨hf, by simp⟩
  rintro ⟨r1, w1⟩ ⟨h1, h2⟩
  rw [attempt_of_bound r1 w1 f h1]
  refine ⟨h1, ?_⟩
  simp only [] at h2 ⊢
  push_cast
  omega

/-- The calls `Open` makes on the factory are counted by `Info.Tries`: when the connection
info resolves, the counter after `Open` is the number of factory invocations of this call. -/
theorem Open_tries_calls (env : Env) (r : Repository) (w : World)
    (hres : (getInfo env r).2.1 = none) :
    (Open env r w).2.1.Info.Tries = ((Open env r w).2.2.calls : Int) - w.calls := by
  rcases getInfo_cases env r with ⟨e, he⟩ | ⟨info, ht, hi⟩
  · rw [he] at hres; simp at hres
  · have hfields := setDB_fields env { r with Info := info } info
    obtain ⟨f, hf⟩ : ∃ f, (setDB env { r with Info := info } info).SetDBFunc = some f := by
      unfold setDB
      cases h : r.SetDBFunc <;> simp [h]
    have hloop := (retryLoop_tries_calls f r.Attempts []
      (setDB env { r with Info := info } info) w hf).2
    rw [hfields.2.1] at hloop
    simp only [ht, sub_zero] at hloop
    rw [Open_of_getInfo_ok env r w info hi]
    rcases hl : retryLoop attempt r.Attempts [] (setDB env { r with Info := info } info, w)
      with ⟨o, r3, w3⟩
    rw [hl] at hloop
    simp only [] at hloop
    cases o with
    | panicked => exact hloop
    | returned err =>
      cases err with
      | some e => exact hloop
      | none =>
        cases hd : r3.Database with
        | none => simpa [hd] using hloop
        | some db => simpa [hd] using hloop

/-- Claim C6, amended: `getInfo` puts the counter back to 0 each time the resolution succeeds,
so when `Open` is called twice in succession and the resolution succeeds both times,
`Info.Tries` after the second call is the number of factory invocations made by the second
call alone. -/
theorem Open_twice_tries (env : Env) (r : Repository) (w : World)
    (_h1 : (getInfo env r).2.1 = none)
    (h2 : (getInfo env (Open env r w).2.1).2.1 = none) :
    (Open env (Open env r w).2.1 (Open env r w).2.2).2.1.Info.Tries =
      ((Open env (Open env r w).2.1 (Open env r w).2.2).2.2.calls : Int) -
        (Open env r w).2.2.calls :=
  Open_tries_calls env (Open env r w).2.1 (Open env r w).2.2 h2

/-- Witness of the amended C6: two calls of `Open` with a factory that fails once and then
opens; the first call leaves the counter at 2, the second at 1. -/
theorem Open_twice_tries_witness :
    (Open (ordersEnv none (some "host=db"))
        (ordersRepository (ordersEnv none (some "host=db")) (some (failsThenOpens 1)) none)
        { calls := 0 }).2.1.Info.Tries = 2 ∧
    (Open (ordersEnv none (some "host=db"))
      (Open (ordersEnv none (some "host=db"))
        (ordersRepository (ordersEnv none (some "host=db")) (some (failsThenOpens 1)) none)
        { calls := 0 }).2.1
      (Open (ordersEnv none (some "host=db"))
        (ordersRepository (ordersEnv none (some "host=db")) (some (failsThenOpens 1)) none)
        { calls := 0 }).2.2).2.1.Info.Tries =
    ((Open (ordersEnv none (some "host=db"))
      (Open (ordersEnv none (some "host=db"))
        (ordersRepository (ordersEnv none (some "host=db")) (some (failsThenOpens 1)) none)
        { calls := 0 }).2.1
      (Open (ordersEnv none (some "host=db"))
        (ordersRepository (ordersEnv none (some "host=db")) (some (failsThenOpens 1)) none)
        { calls := 0 }).2.2).2.2.calls : Int) -
    (Open (ordersEnv none (some "host=db"))
        (ordersRepository (ordersEnv none (some "host=db")) (some (failsThenOpens 1)) none)
        { calls := 0 }).2.2.calls :=
  ⟨by decide,
   Open_twice_tries (ordersEnv none (some "host=db"))
    (ordersRepository (ordersEnv none (some "host=db")) (some (failsThenOpens 1)) none)
    { calls := 0 } (by decide) (by decide)⟩

/-- Counterexample to C6 as stated: with a factory that fails once and then opens, the first
`Open` leaves `Info.Tries` at 2; the second `Open` invokes the factory once and leaves
`Info.Tries` at 1, not at 2 + 1. -/
theorem Open_second_call_restarts_counter :
    (Open (ordersEnv none (some "host=db"))
        (ordersRepository (ordersEnv none (some "host=db")) (some (failsThenOpens 1)) none)
        { calls := 0 }).2.1.Info.Tries = 2 ∧
    (Open (ordersEnv none (some "host=db"))
        (ordersRepository (ordersEnv none (some "host=db")) (some (failsThenOpens 1)) none)
        { calls := 0 }).2.2.calls = 2 ∧
    (Open (ordersEnv none (some "host=db"))
      (Open (ordersEnv none (some "host=db"))
        (ordersRepository (ordersEnv none (some "host=db")) (some (failsThenOpens 1)) none)
        { calls := 0 }).2.1
      (Open (ordersEnv none (some "host=db"))
        (ordersRepository (ordersEnv none (some "host=db")) (some (failsThenOpens 1)) none)
        { calls := 0 }).2.2).2.2.calls = 3 ∧
    (Open (ordersEnv none (some "host=db"))
      (Open (ordersEnv none (some "host=db"))
        (ordersRepository (ordersEnv none (some "host=db")) (some (failsThenOpens 1)) none)
        { calls := 0 }).2.1
      (Open (ordersEnv none (some "host=db"))
        (ordersRepository (ordersEnv none (some "host=db")) (some (failsThenOpens 1)) none)
        { calls := 0 }).2.2).2.1.Info.Tries = 1 := by
  decide

/-- Claim C5, amended: when the repository holds no handle before the call and the connector
factory returns no handle alongside an error, a call of `Open` that returns an error leaves
`Database` nil. -/
theorem Open_error_no_handle (env : Env) (r : Repository) (w : World) (e : Error)
    (hprior : r.Database = none)
    (hclean : ∀ f, (setDB env r (getInfo env r).1).SetDBFunc = some f →
      ∀ i, (f i).err ≠ none → (f i).db = none)
    (herr : (Open env r w).1 = Outcome.returned (some e)) :
    (Open env r w).2.1.Database = none := by
  rcases getInfo_cases env r with ⟨e1, he⟩ | ⟨info, _, hi⟩
  · rw [Open_of_getInfo_error env r w e1 he]
    exact hprior
  · have hfields := setDB_fields env { r with Info := info } info
    obtain ⟨f, hf⟩ : ∃ f, (setDB env { r with Info := info } info).SetDBFunc = some f := by
      unfold setDB
      cases h : r.SetDBFunc <;> simp [h]
    have hf0 : (setDB env r (getInfo env r).1).SetDBFunc = some f := by
      rw [hi]
      exact (setDB_SetDBFunc_with_info env r info info).symm.trans hf
    have hloop := retryLoop_error_keeps_nil f (hclean f hf0) r.Attempts []
      (setDB env { r with Info := info } info) w
    rw [Open_of_getInfo_ok env r w info hi] at herr ⊢
    rcases hl : retryLoop attempt r.Attempts [] (setDB env { r with Info := info } info, w)
      with ⟨o, r3, w3⟩
    rw [hl] at hloop herr
    cases o with
    | panicked => simp at herr
    | returned err =>
      cases err with
      | some e2 => exact hloop e2 hf (by rw [hfields.2.2]; exact hprior) rfl
      | none =>
        cases hd : r3.Database with
        | none => simp [hd] at herr
        | some db => simp [hd] at herr

/-- Witness of the amended C5: no handle held, a factory that always fails without a handle. -/
theorem Open_error_no_handle_witness :
    (Open (ordersEnv none (some "host=db"))
        (ordersRepository (ordersEnv none (some "host=db")) (some alwaysFails) none)
        { calls := 0 }).1 = Outcome.returned (some (Error.retry
          ["connection refused", "connection refused", "connection refused"])) ∧
    (Open (ordersEnv none (some "host=db"))
        (ordersRepository (ordersEnv none (some "host=db")) (some alwaysFails) none)
        { calls := 0 }).2.1.Database = none :=
  ⟨by decide,
   Open_error_no_handle (ordersEnv none (some "host=db"))
    (ordersRepository (ordersEnv none (some "host=db")) (some alwaysFails) none)
    { calls := 0 }
    (Error.retry ["connection refused", "connection refused", "connection refused"])
    rfl
    (fun f hf i _ => by
      have h : alwaysFails = f := Option.some.inj hf
      rw [← h]
      rfl)
    (by decide)⟩

/-- Counterexample to C5 as stated: `Open` returns an error and a handle is retained, both
when the resolution fails on a repository that held a handle before the call, and when every
retry fails with a factory that returns a handle alongside its error. -/
theorem Open_error_handle_retained :
    ((Open (ordersEnv none (some ""))
        (ordersRepository (ordersEnv none (some "")) (some alwaysFails) (some freshHandle))
        { calls := 0 }).1 =
      Outcome.returned (some (Error.plain "no connection string was provided")) ∧
     (Open (ordersEnv none (some ""))
        (ordersRepository (ordersEnv none (some "")) (some alwaysFails) (some freshHandle))
        { calls := 0 }).2.1.Database = some freshHandle) ∧
    ((Open (ordersEnv none (some "host=db"))
        (ordersRepository (ordersEnv none (some "host=db")) (some failsWithHandle) none)
        { calls := 0 }).1 =
      Outcome.returned (some (Error.retry ["ping failed", "ping failed", "ping failed"])) ∧
     (Open (ordersEnv none (some "host=db"))
        (ordersRepository (ordersEnv none (some "host=db")) (some failsWithHandle) none)
        { calls := 0 }).2.1.Database = some freshHandle) := by
  decide

end Data

/-! ## The connector factory, `Migrate` -/

namespace Data
open Go

/-- The resolution of the connection info never touches `SetDBFunc`. -/
theorem getInfo_SetDBFunc (env : Env) (r : Repository) :
    (getInfo env r).2.2.SetDBFunc = r.SetDBFunc := by
  rcases getInfo_cases env r with ⟨e, he⟩ | ⟨info, _, hi⟩
  · rw [he]
  · rw [hi]

/-- A bound factory is kept by `setDB`. -/
theorem setDB_of_bound (env : Env) (r : Repository) (info : Info) (f : Factory)
    (hf : r.SetDBFunc = some f) : setDB env r info = r := by
  simp [setDB, hf]

/-- A bound factory is kept by `Open`. -/
theorem Open_SetDBFunc (env : Env) (r : Repository) (w : World) (f : Factory)
    (hf : r.SetDBFunc = some f) : (Open env r w).2.1.SetDBFunc = some f := by
  rcases getInfo_cases env r with ⟨e, he⟩ | ⟨info, _, hi⟩
  · rw [Open_of_getInfo_error env r w e he]
    exact hf
  · have hf1 : ({ r with Info := info } : Repository).SetDBFunc = some f := hf
    have hloop := (retryLoop_tries_calls f r.Attempts [] { r with Info := info } w hf1).1
    rw [Open_of_getInfo_ok env r w info hi, setDB_of_bound env _ info f hf1]
    rcases hl : retryLoop attempt r.Attempts [] ({ r with Info := info }, w) with ⟨o, r3, w3⟩
    rw [hl] at hloop
    cases o with
    | panicked => exact hloop
    | returned err =>
      cases err with
      | some e => exact hloop
      | none =>
        cases hd : r3.Database with
        | none => simpa [hd] using hloop
        | some db => simpa [hd] using hloop

/-- A bound factory is kept by `Ping`. -/
theorem Ping_SetDBFunc (env : Env) (r : Repository) (w : World) (f : Factory)
    (hf : r.SetDBFunc = some f) : (Ping env r w).2.1.SetDBFunc = some f := by
  have hf1 : ∀ info : Info, ({ r with Info := info } : Repository).SetDBFunc = some f :=
    fun _ => hf
  unfold Ping
  rcases getInfo_cases env r with ⟨e, he⟩ | ⟨info, _, hi⟩
  · rw [he]
    exact hf
  · rw [hi]
    simp only [setDB_of_bound env _ info f (hf1 info), hf1 info]
    cases (f w.calls).err with
    | some err => exact hf
    | none =>
      cases (f w.calls).db with
      | none => exact hf
      | some db => exact hf

/-- A bound factory is kept by every call of the interface. -/
theorem Call_run_SetDBFunc (env : Env) (c : Call) (r : Repository) (w : World) (f : Factory)
    (hf : r.SetDBFunc = some f) : (c.run env r w).2.1.SetDBFunc = some f := by
  cases c with
  | Open => exact Open_SetDBFunc env r w f hf
  | Ping => exact Ping_SetDBFunc env r w f hf
  | Migrate => exact hf
  | Close =>
    show (Close env r w).2.1.SetDBFunc = some f
    unfold Close
    cases r.Database <;> exact hf

/-- A bound factory is kept by every sequence of calls. -/
theorem runCalls_SetDBFunc (env : Env) (f : Factory) :
    ∀ (cs : List Call) (r : Repository) (w : World), r.SetDBFunc = some f →
      (runCalls env cs r w).2.1.SetDBFunc = some f := by
  intro cs
  induction cs with
  | nil => intro r w hf; exact hf
  | cons c cs ih =>
    intro r w hf
    have h1 := Call_run_SetDBFunc env c r w f hf
    unfold runCalls
    rcases hc : c.run env r w with ⟨o, r1, w1⟩
    rw [hc] at h1
    cases o with
    | panicked => exact h1
    | returned err => exact ih r1 w1 h1

/-- Claim C7: a connector factory that is set is never replaced: `setDB` with any `Info` and
any sequence of `Open`, `Ping`, `Migrate` and `Close` calls leave `SetDBFunc` the same
function; when `SetDBFunc` is unset, `setDB` binds the default factory, which opens a handle
with the kind and the connection string of the given `Info`. -/
theorem SetDBFunc_bound_once (env : Env) (r : Repository) (info : Info) :
    (∀ f, r.SetDBFunc = some f →
      (setDB env r info).SetDBFunc = some f ∧
      ∀ (cs : List Call) (w : World), (runCalls env cs r w).2.1.SetDBFunc = some f) ∧
    (r.SetDBFunc = none →
      (setDB env r info).SetDBFunc = some (env.gormOpen info.Typ info.ConnectionString)) := by
  refine ⟨fun f hf => ⟨?_, fun cs w => runCalls_SetDBFunc env f cs r w hf⟩, fun hn => ?_⟩
  · rw [setDB_of_bound env r info f hf]
    exact hf
  · simp [setDB, hn]

/-- Witness of C7: a test double stays bound through `Open`, `Ping`, `Migrate`, `Close`, and the
default factory is bound on a new repository. -/
theorem SetDBFunc_bound_once_witness :
    (runCalls (ordersEnv none (some "host=db")) [Call.Open, Call.Ping, Call.Migrate, Call.Close]
        (ordersRepository (ordersEnv none (some "host=db")) (some (failsThenOpens 1)) none)
        { calls := 0 }).2.1.SetDBFunc = some (failsThenOpens 1) ∧
    (setDB (ordersEnv none (some "host=db")) (NewRepository (ordersEnv none (some "host=db")) "orders")
        { Typ := "postgres", ConnectionString := "host=db", Tries := 0 }).SetDBFunc =
      some ((ordersEnv none (some "host=db")).gormOpen "postgres" "host=db") :=
  ⟨((SetDBFunc_bound_once (ordersEnv none (some "host=db"))
      (ordersRepository (ordersEnv none (some "host=db")) (some (failsThenOpens 1)) none)
      Info.zero).1 (failsThenOpens 1) rfl).2 [Call.Open, Call.Ping, Call.Migrate, Call.Close]
      { calls := 0 },
   (SetDBFunc_bound_once (ordersEnv none (some "host=db"))
      (NewRepository (ordersEnv none (some "host=db")) "orders")
      { Typ := "postgres", ConnectionString := "host=db", Tries := 0 }).2 rfl⟩

/-- Claim C9, amended: in every repository state `Migrate` returns the same non-nil error,
the fixed message of the base implementation, and leaves the repository and the world as they
were. -/
theorem Migrate_fixed_error (r : Repository) (w : World) :
    Migrate r w = (Outcome.returned (some (Error.plain migrateMessage)), r, w) ∧
    (Migrate r w).1 ≠ Outcome.returned none := by
  refine ⟨rfl, ?_⟩
  simp [Migrate]

/-- Counterexample to C9 as stated: the message of the error `Migrate` returns on a new
repository is not "migrate is not implemented in the base implementation". -/
theorem Migrate_message_differs :
    (Migrate (NewRepository (ordersEnv none none) "orders") { calls := 0 }).1 =
      Outcome.returned (some (Error.plain
        "migrate is not implemneted in the base implemenation of respositor")) ∧
    (Migrate (NewRepository (ordersEnv none none) "orders") { calls := 0 }).1 ≠
      Outcome.returned (some (Error.plain
        "migrate is not implemented in the base implementation")) := by
  decide

end Data

/-! ## The level of the logger -/

namespace Logging
open Go

/-- Claim C8, amended: for every level configuration that the level parser rejects,
`getLevel`, and so the level of `NewLogger`, is the warn level; "bogus" is such a
configuration, and once the logger made from it is loaded a debug message is not written and
a warn message is. -/
theorem getLevel_unparseable (u : UnicodeTables) :
    (∀ config : String, UnmarshalText u config = none →
      getLevel u config = WarnLevel ∧ (NewLogger u config).Level = WarnLevel) ∧
    UnmarshalText u "bogus" = none ∧
    (NewLogger u "bogus").Level = WarnLevel ∧
    (∀ (g : Globals) (event message : String),
      (Debug event message (Load (NewLogger u "bogus") g)) = Load (NewLogger u "bogus") g ∧
      (Warn event message (Load (NewLogger u "bogus") g)).stderr =
        (Load (NewLogger u "bogus") g).stderr ++
          [{ level := WarnLevel, title := event, message := message }]) := by
  have hb : UnmarshalText u "bogus" = none := by
    have hl : ToLower u "bogus" = "bogus" := by
      simp [ToLower, asciiLower]
    unfold UnmarshalText
    rw [hl]
    decide
  have hlev : (NewLogger u "bogus").Level = WarnLevel := by
    simp [NewLogger, getLevel, hb, defaultLevel]
  refine ⟨fun config h => ?_, hb, hlev, fun g event message => ?_⟩
  · simp [NewLogger, getLevel, h, defaultLevel]
  · have hload : Load (NewLogger u "bogus") g = { g with threshold := some WarnLevel } := by
      simp [Load, hlev, Info, add, Enabled, InfoLevel, WarnLevel]
    rw [hload]
    constructor
    · simp [Debug, add, Enabled, DebugLevel, WarnLevel]
    · simp [Warn, add, Enabled, WarnLevel]

/-- Witness of the amended C8: the configuration "verbose" is rejected by the parser. -/
theorem getLevel_unparseable_witness :
    getLevel asciiTables "verbose" = WarnLevel ∧
    (NewLogger asciiTables "verbose").Level = WarnLevel :=
  (getLevel_unparseable asciiTables).1 "verbose" (by decide)

/-- Counterexample to C8 as stated: for the absent configuration, the empty string, the level
is the info level, not the warn level, and an info message is written once the logger is
loaded. -/
theorem getLevel_empty_is_info :
    getLevel asciiTables "" = InfoLevel ∧
    getLevel asciiTables "" ≠ WarnLevel ∧
    (NewLogger asciiTables "").Level ≠ WarnLevel ∧
    (Load (NewLogger asciiTables "") { threshold := none, stderr := [] }).stderr =
      [{ level := InfoLevel, title := "logger.initialised",
         message := "the logger level has been set" }] := by
  decide

end Logging
